import Mathlib

/-!
Shallow embedding of the GreenpulseNG backend (src/backend.py).

The emissions store (sqlite table `emissions`) is modelled as a
`List Record` in insertion (rowid) order; `SELECT * ... WHERE` is
`List.filter` in that order.  Python floats are modelled as `ℚ`.
Dataframe `groupby(...)["emissions_kgCO2e"].sum()` is modelled by
`groupSum`, whose keys are the distinct key strings in ascending
code-point order, matching the sorted index pandas produces.
HTTP errors are modelled by `ApiError`: status 400 on upload is
`validation`, 404 is `notFound`, 400 on forecast is
`insufficientData`.  External collaborators (CSV byte parsing, the
Prophet model fit, PDF rendering) are outside the model: upload takes
an already parsed tabular file, and forecast returns the grouped
date series that would be handed to the model.
-/

/-- Errors surfaced by the endpoints, following the taxonomy of the
HTTPExceptions raised in src/backend.py. -/
inductive ApiError where
  | validation
  | notFound
  | insufficientData
deriving DecidableEq, Repr

/-- One row of the `emissions` table (src/backend.py, init_db). -/
structure Record where
  business_id : String
  business_type : String
  date : String
  source_category : String
  activity : String
  amount : ℚ
  unit : String
  emission_factor : ℚ
  emissions_kgCO2e : ℚ
  scope : String
  user_id : String
deriving DecidableEq, Repr

/-- The `ManualEntry` pydantic model: all record fields except the
derived `emissions_kgCO2e` and `user_id`. -/
structure ManualEntry where
  business_id : String
  business_type : String
  date : String
  source_category : String
  activity : String
  amount : ℚ
  unit : String
  emission_factor : ℚ
  scope : String
deriving DecidableEq, Repr

/-- The `ScenarioRequest` pydantic model: four percentage knobs and a
category filter defaulting to "all". -/
structure ScenarioRequest where
  waste_reduction : ℚ
  solar_percentage : ℚ
  transport_reduction : ℚ
  commute_reduction : ℚ
  source_category : String
deriving DecidableEq, Repr

/-- Code-point comparison of char lists, the order pandas uses when
sorting string group keys. -/
def charListLe : List Char → List Char → Bool
  | [], _ => true
  | _ :: _, [] => false
  | x :: xs, y :: ys =>
      if x.toNat < y.toNat then true
      else if y.toNat < x.toNat then false
      else charListLe xs ys

/-- Code-point lexicographic order on strings. -/
def strLe (a b : String) : Bool := charListLe a.data b.data

/-- The distinct values of a string key over rows, ascending, as in the
index of a pandas groupby. -/
def sortedKeys (f : Record → String) (rs : List Record) : List String :=
  List.insertionSort (fun a b => strLe a b = true) ((rs.map f).dedup)

/-- Sum of `emissions_kgCO2e` over the rows whose key is `k`. -/
def sumBy (f : Record → String) (k : String) (rs : List Record) : ℚ :=
  ((rs.filter (fun r => f r == k)).map (·.emissions_kgCO2e)).sum

/-- The model of `df.groupby(f)["emissions_kgCO2e"].sum()`: one
(key, sum) pair per distinct key, keys ascending. -/
def groupSum (f : Record → String) (rs : List Record) : List (String × ℚ) :=
  (sortedKeys f rs).map (fun k => (k, sumBy f k rs))

/-- Sum of `emissions_kgCO2e` over all given rows. -/
def totalEmissions (rs : List Record) : ℚ :=
  (rs.map (·.emissions_kgCO2e)).sum

/-- The rows returned by
`SELECT * FROM emissions WHERE business_id = ? AND user_id = ?`. -/
def recordsFor (business_id userId : String) (store : List Record) : List Record :=
  store.filter (fun r => r.business_id == business_id && r.user_id == userId)

/-- The static recommendation lookup of `get_ai_recommendation`: a dict
keyed by source category with a default entry; the `activity` argument
is received but never consulted. -/
def get_ai_recommendation (activity source_category : String) : String :=
  if source_category = "electricity" then
    "Consider installing solar panels to reduce reliance on the grid."
  else if source_category = "transport" then
    "Optimize delivery routes and consider using more fuel-efficient vehicles."
  else if source_category = "waste" then
    "Implement a recycling program and compost organic waste."
  else
    "Review your energy consumption and identify areas for reduction."

/-- The default entry of the recommendation dict. -/
def defaultRecommendation : String :=
  "Review your energy consumption and identify areas for reduction."

/-- The row inserted by the `/manual_entry` endpoint. -/
def entryRecord (entry : ManualEntry) (userId : String) : Record :=
  { business_id := entry.business_id
    business_type := entry.business_type
    date := entry.date
    source_category := entry.source_category
    activity := entry.activity
    amount := entry.amount
    unit := entry.unit
    emission_factor := entry.emission_factor
    emissions_kgCO2e := entry.amount * entry.emission_factor
    scope := entry.scope
    user_id := userId }

/-- The `/manual_entry` endpoint: computes `emissions_kgCO2e`, stamps
`user_id`, INSERTs one row, and returns the computed value.  There is
no validation branch. -/
def manual_entry (entry : ManualEntry) (userId : String) (store : List Record) :
    List Record × ℚ :=
  (store ++ [entryRecord entry userId], entry.amount * entry.emission_factor)

/-- A parsed tabular upload: the column names the parser found, and the
typed row data for the nine required columns. -/
structure CsvFile where
  columns : List String
  rows : List ManualEntry
deriving Repr

/-- The `required_columns` list of `upload_csv`. -/
def required_columns : List String :=
  ["business_id", "business_type", "date", "source_category", "activity",
   "amount", "unit", "emission_factor", "scope"]

/-- A row written by `upload_csv`: the parsed fields plus the derived
`emissions_kgCO2e` column and the `user_id` stamp. -/
def uploadRecord (userId : String) (row : ManualEntry) : Record :=
  entryRecord row userId

/-- The `/upload` endpoint: fails 400 when a required column is absent;
otherwise derives `emissions_kgCO2e` and `user_id` per row and writes
the rows with `to_sql(..., if_exists="replace")`, returning the new
table and `len(df)`. -/
def upload_csv (file : CsvFile) (userId : String) :
    Except ApiError (List Record × Nat) :=
  if ∀ c ∈ required_columns, c ∈ file.columns then
    let recs := file.rows.map (uploadRecord userId)
    .ok (recs, recs.length)
  else
    .error .validation

/-- The store contents after a call to `/upload`: replaced wholesale on
success, untouched when the endpoint raises before writing. -/
def uploadStore (file : CsvFile) (userId : String) (store : List Record) :
    List Record :=
  match upload_csv file userId with
  | .ok (s, _) => s
  | .error _ => store

/-- Output of the `/dashboard` endpoint. -/
structure DashboardOut where
  total_emissions : ℚ
  avg_monthly_emissions : ℚ
  contributors : List (String × ℚ)
  by_scope : List (String × ℚ)
deriving Repr

/-- The `/dashboard/business_id` endpoint. -/
def get_dashboard (business_id userId : String) (store : List Record) :
    Except ApiError DashboardOut :=
  let df := recordsFor business_id userId store
  if df.isEmpty then .error .notFound
  else
    let total := totalEmissions df
    .ok { total_emissions := total
          avg_monthly_emissions := total / 12
          contributors := groupSum (·.source_category) df
          by_scope := groupSum (·.scope) df }

/-- The `business_type` of the first selected row, `df.iloc[0]`. -/
def firstBusinessType (rs : List Record) : String :=
  match rs with
  | [] => ""
  | r :: _ => r.business_type

/-- The rows of `SELECT * FROM emissions WHERE business_type = ?`,
deliberately not filtered by `user_id`. -/
def sectorRecords (store : List Record) (business_type : String) : List Record :=
  store.filter (fun r => r.business_type == business_type)

/-- The distinct business ids appearing in rows. -/
def businessIds (rs : List Record) : List String :=
  (rs.map (·.business_id)).dedup

/-- The model of
`df_sector.groupby("business_id")["emissions_kgCO2e"].sum().mean()`:
the mean over distinct business ids of each business's emissions sum. -/
def avgSectorEmissions (rs : List Record) : ℚ :=
  ((businessIds rs).map (fun i => sumBy (·.business_id) i rs)).sum /
    ((businessIds rs).length : ℚ)

/-- First maximal pair of a (key, value) list, the model of pandas
`idxmax` (first index attaining the maximum). -/
def argmaxFirst (pairs : List (String × ℚ)) : String × ℚ :=
  match pairs with
  | [] => ("", 0)
  | p :: ps => ps.foldl (fun best q => if best.2 < q.2 then q else best) p

/-- The activity with the largest emissions sum,
`df_business.groupby("activity")["emissions_kgCO2e"].sum().idxmax()`. -/
def topActivity (rs : List Record) : String :=
  (argmaxFirst (groupSum (·.activity) rs)).1

/-- The source category of the first row carrying the top activity. -/
def topSourceCategory (rs : List Record) : String :=
  match rs.find? (fun r => r.activity == topActivity rs) with
  | some r => r.source_category
  | none => ""

/-- The green score computed by `/insights`: the sector comparison
formula when the sector average is positive, 100 otherwise, clamped to
[0, 100] afterwards in both cases. -/
def insightsGreenScore (business_id userId : String) (store : List Record) : ℚ :=
  let df := recordsFor business_id userId store
  let total := totalEmissions df
  let avg := avgSectorEmissions (sectorRecords store (firstBusinessType df))
  max 0 (min 100 (if 0 < avg then (1 - total / avg) * 100 else 100))

/-- Output of the `/insights` endpoint. -/
structure InsightsOut where
  green_score : ℚ
  recommendation : String
  explanation : String
deriving Repr

/-- The fixed narrative sentence returned by `/insights`. -/
def insightsExplanation : String :=
  "Based on Nigerian grid emission factors (0.359 kgCO2/kWh) and fuel standards, your business emissions are interpreted according to local energy and waste conditions."

/-- The `/insights/business_id` endpoint. -/
def get_insights (business_id userId : String) (store : List Record) :
    Except ApiError InsightsOut :=
  let df := recordsFor business_id userId store
  if df.isEmpty then .error .notFound
  else
    .ok { green_score := insightsGreenScore business_id userId store
          recommendation := get_ai_recommendation (topActivity df) (topSourceCategory df)
          explanation := insightsExplanation }

/-- One masked in-place multiplication
`sim_data.loc[sim_data["source_category"] == cat, "emissions_kgCO2e"] *= (1 - pct / 100)`. -/
def applyKnob (cat : String) (pct : ℚ) (r : Record) : Record :=
  if r.source_category = cat then
    { r with emissions_kgCO2e := r.emissions_kgCO2e * (1 - pct / 100) }
  else r

/-- The four sequential masked multiplications of `/forecast` applied
to one row: waste, then electricity (solar knob), then transport, then
commute. -/
def simulate1 (sc : ScenarioRequest) (r : Record) : Record :=
  applyKnob "commute" sc.commute_reduction
    (applyKnob "transport" sc.transport_reduction
      (applyKnob "electricity" sc.solar_percentage
        (applyKnob "waste" sc.waste_reduction r)))

/-- The scenario simulation over a copy of the selected rows. -/
def simulate (sc : ScenarioRequest) (rs : List Record) : List Record :=
  rs.map (simulate1 sc)

/-- The post-adjustment category filter of `/forecast`: identity for
"all", otherwise keep only the requested category. -/
def scenarioFilter (sc : ScenarioRequest) (rs : List Record) : List Record :=
  if sc.source_category = "all" then rs
  else rs.filter (fun r => r.source_category == sc.source_category)

/-- The series `df_filtered.groupby("date")["emissions_kgCO2e"].sum()`
built by `/forecast` after simulation and filtering: one point per
distinct date string. -/
def simSeries (sc : ScenarioRequest) (business_id userId : String)
    (store : List Record) : List (String × ℚ) :=
  groupSum (·.date) (scenarioFilter sc (simulate sc (recordsFor business_id userId store)))

/-- The `/forecast/business_id` endpoint up to the external model fit:
400 when the selection is empty, 400 when fewer than two distinct dates
remain, otherwise the date series handed to the Prophet model. -/
def get_forecast (sc : ScenarioRequest) (business_id userId : String)
    (store : List Record) : Except ApiError (List (String × ℚ)) :=
  let df := recordsFor business_id userId store
  if df.isEmpty then .error .insufficientData
  else
    let series := simSeries sc business_id userId store
    if series.length < 2 then .error .insufficientData
    else .ok series

/-- Data computed by the `/report` endpoint before rendering. -/
structure ReportOut where
  business_type : String
  total_emissions : ℚ
  avg_monthly : ℚ
  contributors : List (String × ℚ)
  top_category : String
  recommendation : String
deriving Repr

/-- The `/report/business_id` endpoint up to the external PDF
rendering: the figures drawn on the page and the recommendation seeded
from the top contributing category with an empty activity argument. -/
def generate_pdf_report (business_id userId : String) (store : List Record) :
    Except ApiError ReportOut :=
  let df := recordsFor business_id userId store
  if df.isEmpty then .error .notFound
  else
    let total := totalEmissions df
    let contributors := groupSum (·.source_category) df
    let top_category := (argmaxFirst contributors).1
    .ok { business_type := firstBusinessType df
          total_emissions := total
          avg_monthly := total / 12
          contributors := contributors
          top_category := top_category
          recommendation := get_ai_recommendation "" top_category }

/-! Helper lemmas shared by the claim theorems. -/

/-- Membership in the sorted key list is occurrence of the key value. -/
lemma mem_sortedKeys (f : Record → String) (rs : List Record) (c : String) :
    c ∈ sortedKeys f rs ↔ ∃ r ∈ rs, f r = c := by
  simp [sortedKeys, List.mem_insertionSort, List.mem_dedup]

/-- Characterization of the (key, sum) pairs produced by `groupSum`. -/
lemma mem_groupSum (f : Record → String) (rs : List Record) (c : String) (s : ℚ) :
    (c, s) ∈ groupSum f rs ↔ (∃ r ∈ rs, f r = c) ∧ s = sumBy f c rs := by
  constructor
  · rintro hmem
    simp only [groupSum, List.mem_map] at hmem
    obtain ⟨k, hk, heq⟩ := hmem
    obtain ⟨h1, h2⟩ := Prod.mk.injEq .. ▸ heq
    subst h1
    exact ⟨(mem_sortedKeys f rs k).1 hk, h2.symm⟩
  · rintro ⟨hc, hs⟩
    simp only [groupSum, List.mem_map]
    exact ⟨c, (mem_sortedKeys f rs c).2 hc, by rw [hs]⟩

/-- An empty selection means the filter rejects every stored row. -/
lemma recordsFor_eq_nil (business_id userId : String) (store : List Record)
    (h : ∀ r ∈ store, ¬(r.business_id = business_id ∧ r.user_id = userId)) :
    recordsFor business_id userId store = [] := by
  simp only [recordsFor, List.filter_eq_nil_iff]
  intro r hr
  simpa using h r hr

/-- C8: a manual entry appends exactly one row to the store, with
`emissions_kgCO2e = amount * emission_factor` computed exactly and
`user_id` stamped from the caller identity; every previously stored row
is unchanged, and the returned value is the computed emissions. -/
theorem manual_entry_appends_one_row (entry : ManualEntry) (userId : String)
    (store : List Record) :
    (manual_entry entry userId store).2 = entry.amount * entry.emission_factor ∧
    (manual_entry entry userId store).1 = store ++ [entryRecord entry userId] ∧
    (entryRecord entry userId).emissions_kgCO2e = entry.amount * entry.emission_factor ∧
    (entryRecord entry userId).user_id = userId ∧
    (manual_entry entry userId store).1.take store.length = store ∧
    (manual_entry entry userId store).1.length = store.length + 1 := by
  refine ⟨rfl, rfl, rfl, rfl, ?_, ?_⟩
  · simp [manual_entry, List.take_left]
  · simp [manual_entry]

/-- C1: when every required column is present, the bulk upload succeeds,
the store afterwards is exactly the uploaded rows (whatever it held
before, for any tenant), each stored row has
`emissions_kgCO2e = amount * emission_factor` and the caller's
`user_id`, and the returned row count is the number of input rows. -/
theorem upload_replaces_store (file : CsvFile) (userId : String) (store : List Record)
    (h : ∀ c ∈ required_columns, c ∈ file.columns) :
    upload_csv file userId =
      .ok (file.rows.map (uploadRecord userId), file.rows.length) ∧
    uploadStore file userId store = file.rows.map (uploadRecord userId) ∧
    (∀ row, (uploadRecord userId row).emissions_kgCO2e = row.amount * row.emission_factor ∧
      (uploadRecord userId row).user_id = userId) := by
  have hok : upload_csv file userId =
      .ok (file.rows.map (uploadRecord userId), file.rows.length) := by
    simp only [upload_csv, if_pos h, List.length_map]
  exact ⟨hok, by simp [uploadStore, hok], fun row => ⟨rfl, rfl⟩⟩

/-- C1 witness: a two-row upload with all nine columns present replaces
a non-empty prior store of a different tenant. -/
theorem upload_replaces_store_witness :
    upload_csv
        ⟨["business_id", "business_type", "date", "source_category", "activity",
          "amount", "unit", "emission_factor", "scope"],
         [⟨"b1", "retail", "2024-01", "electricity", "grid", 100, "kWh", 2, "2"⟩]⟩ "1" =
      .ok ([⟨"b1", "retail", "2024-01", "electricity", "grid", 100, "kWh", 2, 100 * 2, "2", "1"⟩], 1) ∧
    uploadStore
        ⟨["business_id", "business_type", "date", "source_category", "activity",
          "amount", "unit", "emission_factor", "scope"],
         [⟨"b1", "retail", "2024-01", "electricity", "grid", 100, "kWh", 2, "2"⟩]⟩ "1"
        [⟨"b9", "farm", "2023-12", "waste", "landfill", 5, "kg", 1, 5, "3", "7"⟩] =
      [⟨"b1", "retail", "2024-01", "electricity", "grid", 100, "kWh", 2, 100 * 2, "2", "1"⟩] := by
  have h := upload_replaces_store
    ⟨["business_id", "business_type", "date", "source_category", "activity",
      "amount", "unit", "emission_factor", "scope"],
     [⟨"b1", "retail", "2024-01", "electricity", "grid", 100, "kWh", 2, "2"⟩]⟩ "1"
    [⟨"b9", "farm", "2023-12", "waste", "landfill", 5, "kg", 1, 5, "3", "7"⟩]
    (by decide)
  exact ⟨h.1, h.2.1⟩

/-- C7: the bulk upload fails with a validation error exactly when one
of the nine required columns is absent from the parsed file, and in
that case the store is left unchanged. -/
theorem upload_validation_iff_missing_column (file : CsvFile) (userId : String)
    (store : List Record) :
    (upload_csv file userId = .error .validation ↔
      ∃ c ∈ required_columns, c ∉ file.columns) ∧
    ((∃ c ∈ required_columns, c ∉ file.columns) →
      uploadStore file userId store = store) := by
  by_cases h : ∀ c ∈ required_columns, c ∈ file.columns
  · have hok : upload_csv file userId =
        .ok (file.rows.map (uploadRecord userId), (file.rows.map (uploadRecord userId)).length) := by
      simp only [upload_csv, if_pos h]
    constructor
    · rw [hok]
      simp only [iff_iff_implies_and_implies]
      refine ⟨fun hc => absurd hc (by simp), fun hc => ?_⟩
      obtain ⟨c, hc1, hc2⟩ := hc
      exact absurd (h c hc1) hc2
    · rintro ⟨c, hc1, hc2⟩
      exact absurd (h c hc1) hc2
  · have herr : upload_csv file userId = .error .validation := by
      simp only [upload_csv, if_neg h]
    push_neg at h
    refine ⟨⟨fun _ => ?_, fun _ => herr⟩, fun _ => ?_⟩
    · obtain ⟨c, hc1, hc2⟩ := h
      exact ⟨c, hc1, hc2⟩
    · simp [uploadStore, herr]

/-- C7 witness: a file lacking the `scope` column is rejected with a
validation error and an existing store is untouched. -/
theorem upload_validation_witness :
    (upload_csv
        ⟨["business_id", "business_type", "date", "source_category", "activity",
          "amount", "unit", "emission_factor"], []⟩ "1" = .error .validation ↔
      ∃ c ∈ required_columns,
        c ∉ ["business_id", "business_type", "date", "source_category", "activity",
             "amount", "unit", "emission_factor"]) ∧
    uploadStore
        ⟨["business_id", "business_type", "date", "source_category", "activity",
          "amount", "unit", "emission_factor"], []⟩ "1"
        [⟨"b9", "farm", "2023-12", "waste", "landfill", 5, "kg", 1, 5, "3", "7"⟩] =
      [⟨"b9", "farm", "2023-12", "waste", "landfill", 5, "kg", 1, 5, "3", "7"⟩] := by
  have h := upload_validation_iff_missing_column
    ⟨["business_id", "business_type", "date", "source_category", "activity",
      "amount", "unit", "emission_factor"], []⟩ "1"
    [⟨"b9", "farm", "2023-12", "waste", "landfill", 5, "kg", 1, 5, "3", "7"⟩]
  exact ⟨h.1, h.2 ⟨"scope", by decide, by decide⟩⟩

/-- C4: for a non-empty selection the dashboard returns the emissions
total, the total divided by the constant 12, and the per-category and
per-scope sums characterized as order-insensitive sets. -/
theorem dashboard_aggregates (business_id userId : String) (store : List Record)
    (h : recordsFor business_id userId store ≠ []) :
    ∃ out, get_dashboard business_id userId store = .ok out ∧
      out.total_emissions = totalEmissions (recordsFor business_id userId store) ∧
      out.avg_monthly_emissions = out.total_emissions / 12 ∧
      (∀ c s, (c, s) ∈ out.contributors ↔
        ((∃ r ∈ recordsFor business_id userId store, r.source_category = c) ∧
          s = sumBy (·.source_category) c (recordsFor business_id userId store))) ∧
      (∀ g s, (g, s) ∈ out.by_scope ↔
        ((∃ r ∈ recordsFor business_id userId store, r.scope = g) ∧
          s = sumBy (·.scope) g (recordsFor business_id userId store))) := by
  have hne : (recordsFor business_id userId store).isEmpty = false :=
    List.isEmpty_eq_false.2 h
  refine ⟨{ total_emissions := totalEmissions (recordsFor business_id userId store)
            avg_monthly_emissions := totalEmissions (recordsFor business_id userId store) / 12
            contributors := groupSum (·.source_category) (recordsFor business_id userId store)
            by_scope := groupSum (·.scope) (recordsFor business_id userId store) },
         ?_, rfl, rfl, ?_, ?_⟩
  · simp [get_dashboard, hne]
  · intro c s
    exact mem_groupSum (·.source_category) (recordsFor business_id userId store) c s
  · intro g s
    exact mem_groupSum (·.scope) (recordsFor business_id userId store) g s

/-- C4 witness: a concrete two-category store instantiating the
dashboard characterization. -/
theorem dashboard_aggregates_witness :
    ∃ out, get_dashboard "b1" "1"
        [⟨"b1", "retail", "2024-01", "electricity", "grid", 100, "kWh", 1, 100, "2", "1"⟩,
         ⟨"b1", "retail", "2024-02", "waste", "landfill", 50, "kg", 1, 50, "3", "1"⟩] = .ok out ∧
      out.total_emissions = totalEmissions (recordsFor "b1" "1"
        [⟨"b1", "retail", "2024-01", "electricity", "grid", 100, "kWh", 1, 100, "2", "1"⟩,
         ⟨"b1", "retail", "2024-02", "waste", "landfill", 50, "kg", 1, 50, "3", "1"⟩]) ∧
      out.avg_monthly_emissions = out.total_emissions / 12 ∧
      (∀ c s, (c, s) ∈ out.contributors ↔
        ((∃ r ∈ recordsFor "b1" "1"
            [⟨"b1", "retail", "2024-01", "electricity", "grid", 100, "kWh", 1, 100, "2", "1"⟩,
             ⟨"b1", "retail", "2024-02", "waste", "landfill", 50, "kg", 1, 50, "3", "1"⟩],
            r.source_category = c) ∧
          s = sumBy (·.source_category) c (recordsFor "b1" "1"
            [⟨"b1", "retail", "2024-01", "electricity", "grid", 100, "kWh", 1, 100, "2", "1"⟩,
             ⟨"b1", "retail", "2024-02", "waste", "landfill", 50, "kg", 1, 50, "3", "1"⟩]))) ∧
      (∀ g s, (g, s) ∈ out.by_scope ↔
        ((∃ r ∈ recordsFor "b1" "1"
            [⟨"b1", "retail", "2024-01", "electricity", "grid", 100, "kWh", 1, 100, "2", "1"⟩,
             ⟨"b1", "retail", "2024-02", "waste", "landfill", 50, "kg", 1, 50, "3", "1"⟩],
            r.scope = g) ∧
          s = sumBy (·.scope) g (recordsFor "b1" "1"
            [⟨"b1", "retail", "2024-01", "electricity", "grid", 100, "kWh", 1, 100, "2", "1"⟩,
             ⟨"b1", "retail", "2024-02", "waste", "landfill", 50, "kg", 1, 50, "3", "1"⟩]))) :=
  dashboard_aggregates "b1" "1"
    [⟨"b1", "retail", "2024-01", "electricity", "grid", 100, "kWh", 1, 100, "2", "1"⟩,
     ⟨"b1", "retail", "2024-02", "waste", "landfill", 50, "kg", 1, 50, "3", "1"⟩]
    (by decide)

/-- C2: for a non-empty selection the insights green score is the
clamped sector-comparison formula when the sector average is positive,
is 100 when the sector average is non-positive, and always lies in
[0, 100]; the sector average is the mean of per-business sums over all
records (any tenant) sharing the first selected row's business type. -/
theorem insights_green_score_spec (business_id userId : String) (store : List Record)
    (h : recordsFor business_id userId store ≠ []) :
    ∃ out, get_insights business_id userId store = .ok out ∧
      (0 < avgSectorEmissions (sectorRecords store
          (firstBusinessType (recordsFor business_id userId store))) →
        out.green_score = max 0 (min 100
          ((1 - totalEmissions (recordsFor business_id userId store) /
              avgSectorEmissions (sectorRecords store
                (firstBusinessType (recordsFor business_id userId store)))) * 100))) ∧
      (avgSectorEmissions (sectorRecords store
          (firstBusinessType (recordsFor business_id userId store))) ≤ 0 →
        out.green_score = 100) ∧
      0 ≤ out.green_score ∧ out.green_score ≤ 100 := by
  have hne : (recordsFor business_id userId store).isEmpty = false :=
    List.isEmpty_eq_false.2 h
  refine ⟨{ green_score := insightsGreenScore business_id userId store
            recommendation := get_ai_recommendation
              (topActivity (recordsFor business_id userId store))
              (topSourceCategory (recordsFor business_id userId store))
            explanation := insightsExplanation },
         ?_, ?_, ?_, ?_, ?_⟩
  · simp [get_insights, hne]
  · intro hpos
    simp only [insightsGreenScore, if_pos hpos]
  · intro hle
    have hnot : ¬(0 < avgSectorEmissions (sectorRecords store
        (firstBusinessType (recordsFor business_id userId store)))) := not_lt.2 hle
    simp only [insightsGreenScore, if_neg hnot]
    norm_num
  · exact le_max_left 0 _
  · exact max_le (by norm_num) (min_le_left 100 _)

/-- C2 witness: a store where a competing business of the same type
under another tenant fixes a positive sector average. -/
theorem insights_green_score_witness :
    ∃ out, get_insights "b1" "1"
        [⟨"b1", "retail", "2024-01", "electricity", "grid", 100, "kWh", 1, 100, "2", "1"⟩,
         ⟨"b2", "retail", "2024-01", "electricity", "grid", 300, "kWh", 1, 300, "2", "2"⟩] = .ok out ∧
      (0 < avgSectorEmissions (sectorRecords
          [⟨"b1", "retail", "2024-01", "electricity", "grid", 100, "kWh", 1, 100, "2", "1"⟩,
           ⟨"b2", "retail", "2024-01", "electricity", "grid", 300, "kWh", 1, 300, "2", "2"⟩]
          (firstBusinessType (recordsFor "b1" "1"
            [⟨"b1", "retail", "2024-01", "electricity", "grid", 100, "kWh", 1, 100, "2", "1"⟩,
             ⟨"b2", "retail", "2024-01", "electricity", "grid", 300, "kWh", 1, 300, "2", "2"⟩]))) →
        out.green_score = max 0 (min 100
          ((1 - totalEmissions (recordsFor "b1" "1"
              [⟨"b1", "retail", "2024-01", "electricity", "grid", 100, "kWh", 1, 100, "2", "1"⟩,
               ⟨"b2", "retail", "2024-01", "electricity", "grid", 300, "kWh", 1, 300, "2", "2"⟩]) /
              avgSectorEmissions (sectorRecords
                [⟨"b1", "retail", "2024-01", "electricity", "grid", 100, "kWh", 1, 100, "2", "1"⟩,
                 ⟨"b2", "retail", "2024-01", "electricity", "grid", 300, "kWh", 1, 300, "2", "2"⟩]
                (firstBusinessType (recordsFor "b1" "1"
                  [⟨"b1", "retail", "2024-01", "electricity", "grid", 100, "kWh", 1, 100, "2", "1"⟩,
                   ⟨"b2", "retail", "2024-01", "electricity", "grid", 300, "kWh", 1, 300, "2", "2"⟩])))) * 100))) ∧
      (avgSectorEmissions (sectorRecords
          [⟨"b1", "retail", "2024-01", "electricity", "grid", 100, "kWh", 1, 100, "2", "1"⟩,
           ⟨"b2", "retail", "2024-01", "electricity", "grid", 300, "kWh", 1, 300, "2", "2"⟩]
          (firstBusinessType (recordsFor "b1" "1"
            [⟨"b1", "retail", "2024-01", "electricity", "grid", 100, "kWh", 1, 100, "2", "1"⟩,
             ⟨"b2", "retail", "2024-01", "electricity", "grid", 300, "kWh", 1, 300, "2", "2"⟩]))) ≤ 0 →
        out.green_score = 100) ∧
      0 ≤ out.green_score ∧ out.green_score ≤ 100 :=
  insights_green_score_spec "b1" "1"
    [⟨"b1", "retail", "2024-01", "electricity", "grid", 100, "kWh", 1, 100, "2", "1"⟩,
     ⟨"b2", "retail", "2024-01", "electricity", "grid", 300, "kWh", 1, 300, "2", "2"⟩]
    (by decide)

/-- C6: when no stored record matches both the business id and the
caller's user id, dashboard, insights and report fail with the
not-found error while forecast fails with the insufficient-data error,
regardless of records held for that business by other tenants. -/
theorem empty_selection_errors (business_id userId : String) (store : List Record)
    (sc : ScenarioRequest)
    (h : ∀ r ∈ store, ¬(r.business_id = business_id ∧ r.user_id = userId)) :
    get_dashboard business_id userId store = .error .notFound ∧
    get_insights business_id userId store = .error .notFound ∧
    generate_pdf_report business_id userId store = .error .notFound ∧
    get_forecast sc business_id userId store = .error .insufficientData := by
  have hnil : recordsFor business_id userId store = [] :=
    recordsFor_eq_nil business_id userId store h
  refine ⟨?_, ?_, ?_, ?_⟩
  · simp [get_dashboard, hnil]
  · simp [get_insights, hnil]
  · simp [generate_pdf_report, hnil]
  · simp [get_forecast, hnil]

/-- C6 witness: records for business b1 exist only under tenant 2, so
tenant 1 gets the error outcomes on every endpoint. -/
theorem empty_selection_errors_witness :
    get_dashboard "b1" "1"
      [⟨"b1", "retail", "2024-01", "electricity", "grid", 100, "kWh", 1, 100, "2", "2"⟩] =
        .error .notFound ∧
    get_insights "b1" "1"
      [⟨"b1", "retail", "2024-01", "electricity", "grid", 100, "kWh", 1, 100, "2", "2"⟩] =
        .error .notFound ∧
    generate_pdf_report "b1" "1"
      [⟨"b1", "retail", "2024-01", "electricity", "grid", 100, "kWh", 1, 100, "2", "2"⟩] =
        .error .notFound ∧
    get_forecast ⟨0, 0, 0, 0, "all"⟩ "b1" "1"
      [⟨"b1", "retail", "2024-01", "electricity", "grid", 100, "kWh", 1, 100, "2", "2"⟩] =
        .error .insufficientData :=
  empty_selection_errors "b1" "1"
    [⟨"b1", "retail", "2024-01", "electricity", "grid", 100, "kWh", 1, 100, "2", "2"⟩]
    ⟨0, 0, 0, 0, "all"⟩ (by decide)

/-- Collapsing the four sequential masked multiplications: a row's
category selects exactly one knob (electricity rows use the solar
knob), every other category is untouched, and no other field changes. -/
lemma simulate1_eq (sc : ScenarioRequest) (r : Record) :
    simulate1 sc r =
      { r with emissions_kgCO2e :=
          if r.source_category = "waste" then
            r.emissions_kgCO2e * (1 - sc.waste_reduction / 100)
          else if r.source_category = "electricity" then
            r.emissions_kgCO2e * (1 - sc.solar_percentage / 100)
          else if r.source_category = "transport" then
            r.emissions_kgCO2e * (1 - sc.transport_reduction / 100)
          else if r.source_category = "commute" then
            r.emissions_kgCO2e * (1 - sc.commute_reduction / 100)
          else r.emissions_kgCO2e } := by
  by_cases h1 : r.source_category = "waste" <;>
    by_cases h2 : r.source_category = "electricity" <;>
      by_cases h3 : r.source_category = "transport" <;>
        by_cases h4 : r.source_category = "commute" <;>
          simp_all [simulate1, applyKnob]

/-- C3: the simulation maps each selected row through the knob
adjustment; a row of category waste, electricity, transport or commute
has its emissions multiplied by (1 - pct / 100) using the respective
knob (the solar knob for electricity), any other category keeps its
emissions, no other field changes, and the post-adjustment category
filter keeps only the requested category unless it is "all". -/
theorem scenario_adjustment_spec (sc : ScenarioRequest) (rs : List Record) (r : Record) :
    simulate sc rs = rs.map (simulate1 sc) ∧
    (simulate1 sc r).emissions_kgCO2e =
      (if r.source_category = "waste" then
        r.emissions_kgCO2e * (1 - sc.waste_reduction / 100)
      else if r.source_category = "electricity" then
        r.emissions_kgCO2e * (1 - sc.solar_percentage / 100)
      else if r.source_category = "transport" then
        r.emissions_kgCO2e * (1 - sc.transport_reduction / 100)
      else if r.source_category = "commute" then
        r.emissions_kgCO2e * (1 - sc.commute_reduction / 100)
      else r.emissions_kgCO2e) ∧
    (simulate1 sc r).business_id = r.business_id ∧
    (simulate1 sc r).business_type = r.business_type ∧
    (simulate1 sc r).date = r.date ∧
    (simulate1 sc r).source_category = r.source_category ∧
    (simulate1 sc r).activity = r.activity ∧
    (simulate1 sc r).amount = r.amount ∧
    (simulate1 sc r).unit = r.unit ∧
    (simulate1 sc r).emission_factor = r.emission_factor ∧
    (simulate1 sc r).scope = r.scope ∧
    (simulate1 sc r).user_id = r.user_id ∧
    scenarioFilter sc (simulate sc rs) =
      (if sc.source_category = "all" then simulate sc rs
       else (simulate sc rs).filter (fun x => x.source_category == sc.source_category)) := by
  refine ⟨rfl, ?_, ?_, ?_, ?_, ?_, ?_, ?_, ?_, ?_, ?_, ?_, rfl⟩ <;> rw [simulate1_eq]

/-- The all-zero scenario of C9. -/
def zeroKnobScenario : ScenarioRequest := ⟨0, 0, 0, 0, "all"⟩

/-- A zero-percent knob leaves a row unchanged. -/
lemma simulate1_zero (r : Record) : simulate1 zeroKnobScenario r = r := by
  rw [simulate1_eq]
  split_ifs <;> simp [zeroKnobScenario]

/-- C9: the all-zero scenario (with category filter "all") leaves the
simulated series exactly equal to the records, and a knob set to 100
sends every simulated row of the corresponding category to exactly
zero emissions. -/
theorem scenario_knob_extremes (sc : ScenarioRequest) (rs : List Record) (r : Record) :
    scenarioFilter zeroKnobScenario (simulate zeroKnobScenario rs) = rs ∧
    (sc.waste_reduction = 100 → r.source_category = "waste" →
      (simulate1 sc r).emissions_kgCO2e = 0) ∧
    (sc.solar_percentage = 100 → r.source_category = "electricity" →
      (simulate1 sc r).emissions_kgCO2e = 0) ∧
    (sc.transport_reduction = 100 → r.source_category = "transport" →
      (simulate1 sc r).emissions_kgCO2e = 0) ∧
    (sc.commute_reduction = 100 → r.source_category = "commute" →
      (simulate1 sc r).emissions_kgCO2e = 0) := by
  have hsim : simulate zeroKnobScenario rs = rs := by
    induction rs with
    | nil => rfl
    | cons a t ih =>
        simp only [simulate, List.map_cons] at ih ⊢
        rw [simulate1_zero a, ih]
  refine ⟨?_, ?_, ?_, ?_, ?_⟩
  · rw [hsim]
    simp [scenarioFilter, zeroKnobScenario]
  · intro h100 hcat
    rw [simulate1_eq]
    simp [hcat, h100]
  · intro h100 hcat
    rw [simulate1_eq]
    simp [hcat, h100]
  · intro h100 hcat
    rw [simulate1_eq]
    simp [hcat, h100]
  · intro h100 hcat
    rw [simulate1_eq]
    simp [hcat, h100]

/-- C9 witness: the all-zero scenario preserves a two-row store, and
with every knob at 100 a row of each of the four categories simulates
to exactly zero emissions. -/
theorem scenario_knob_extremes_witness :
    scenarioFilter zeroKnobScenario (simulate zeroKnobScenario
      [⟨"b1", "retail", "2024-01", "electricity", "grid", 100, "kWh", 1, 100, "2", "1"⟩,
       ⟨"b1", "retail", "2024-02", "waste", "landfill", 50, "kg", 1, 50, "3", "1"⟩]) =
      [⟨"b1", "retail", "2024-01", "electricity", "grid", 100, "kWh", 1, 100, "2", "1"⟩,
       ⟨"b1", "retail", "2024-02", "waste", "landfill", 50, "kg", 1, 50, "3", "1"⟩] ∧
    (simulate1 ⟨100, 100, 100, 100, "all"⟩
      ⟨"b1", "retail", "2024-02", "waste", "landfill", 50, "kg", 1, 50, "3", "1"⟩).emissions_kgCO2e = 0 ∧
    (simulate1 ⟨100, 100, 100, 100, "all"⟩
      ⟨"b1", "retail", "2024-01", "electricity", "grid", 100, "kWh", 1, 100, "2", "1"⟩).emissions_kgCO2e = 0 ∧
    (simulate1 ⟨100, 100, 100, 100, "all"⟩
      ⟨"b1", "retail", "2024-03", "transport", "delivery", 30, "km", 2, 60, "1", "1"⟩).emissions_kgCO2e = 0 ∧
    (simulate1 ⟨100, 100, 100, 100, "all"⟩
      ⟨"b1", "retail", "2024-04", "commute", "bus", 10, "km", 2, 20, "3", "1"⟩).emissions_kgCO2e = 0 := by
  refine ⟨(scenario_knob_extremes ⟨100, 100, 100, 100, "all"⟩
      [⟨"b1", "retail", "2024-01", "electricity", "grid", 100, "kWh", 1, 100, "2", "1"⟩,
       ⟨"b1", "retail", "2024-02", "waste", "landfill", 50, "kg", 1, 50, "3", "1"⟩]
      ⟨"b1", "retail", "2024-02", "waste", "landfill", 50, "kg", 1, 50, "3", "1"⟩).1,
    (scenario_knob_extremes ⟨100, 100, 100, 100, "all"⟩ []
      ⟨"b1", "retail", "2024-02", "waste", "landfill", 50, "kg", 1, 50, "3", "1"⟩).2.1 rfl rfl,
    (scenario_knob_extremes ⟨100, 100, 100, 100, "all"⟩ []
      ⟨"b1", "retail", "2024-01", "electricity", "grid", 100, "kWh", 1, 100, "2", "1"⟩).2.2.1 rfl rfl,
    (scenario_knob_extremes ⟨100, 100, 100, 100, "all"⟩ []
      ⟨"b1", "retail", "2024-03", "transport", "delivery", 30, "km", 2, 60, "1", "1"⟩).2.2.2.1 rfl rfl,
    (scenario_knob_extremes ⟨100, 100, 100, 100, "all"⟩ []
      ⟨"b1", "retail", "2024-04", "commute", "bus", 10, "km", 2, 20, "3", "1"⟩).2.2.2.2 rfl rfl⟩

/-- C5: whenever the date-grouped series left after scenario
adjustment and category filtering has fewer than two distinct dates,
the forecast endpoint fails with the insufficient-data error. -/
theorem forecast_insufficient_dates (sc : ScenarioRequest) (business_id userId : String)
    (store : List Record)
    (h : (simSeries sc business_id userId store).length < 2) :
    get_forecast sc business_id userId store = .error .insufficientData := by
  by_cases hd : (recordsFor business_id userId store).isEmpty = true
  · simp [get_forecast, hd]
  · simp [get_forecast, hd, if_pos h]

/-- C5 witness: the spec example — an electricity row and a waste row
both dated 2024-01, with 50 percent solar and 100 percent waste
reduction — has a single distinct date, so forecast fails even though
records exist. -/
theorem forecast_insufficient_dates_witness :
    get_forecast ⟨100, 50, 0, 0, "all"⟩ "b1" "1"
      [⟨"b1", "retail", "2024-01", "electricity", "grid", 100, "kWh", 1, 100, "2", "1"⟩,
       ⟨"b1", "retail", "2024-01", "waste", "landfill", 50, "kg", 1, 50, "3", "1"⟩] =
      .error .insufficientData :=
  forecast_insufficient_dates ⟨100, 50, 0, 0, "all"⟩ "b1" "1"
    [⟨"b1", "retail", "2024-01", "electricity", "grid", 100, "kWh", 1, 100, "2", "1"⟩,
     ⟨"b1", "retail", "2024-01", "waste", "landfill", 50, "kg", 1, 50, "3", "1"⟩]
    (by decide)

/-- C10: the recommendation table has entries only for electricity,
transport and waste — any other category, commute included, maps to
the default message; the recommendation ignores the activity argument;
and when the computed top category lies outside the table, insights
and report both return the default message. -/
theorem recommendation_lookup_spec (business_id userId : String) (store : List Record)
    (h : recordsFor business_id userId store ≠ [])
    (htop : topSourceCategory (recordsFor business_id userId store) ∉
      (["electricity", "transport", "waste"] : List String))
    (hrep : (argmaxFirst (groupSum (·.source_category)
        (recordsFor business_id userId store))).1 ∉
      (["electricity", "transport", "waste"] : List String)) :
    (∀ act cat, cat ∉ (["electricity", "transport", "waste"] : List String) →
      get_ai_recommendation act cat = defaultRecommendation) ∧
    (∀ act act2 cat, get_ai_recommendation act cat = get_ai_recommendation act2 cat) ∧
    (∃ out, get_insights business_id userId store = .ok out ∧
      out.recommendation = defaultRecommendation) ∧
    (∃ rep, generate_pdf_report business_id userId store = .ok rep ∧
      rep.recommendation = defaultRecommendation) := by
  have hdef : ∀ act cat, cat ∉ (["electricity", "transport", "waste"] : List String) →
      get_ai_recommendation act cat = defaultRecommendation := by
    intro act cat hc
    simp only [List.mem_cons, List.not_mem_nil, or_false, not_or] at hc
    obtain ⟨h1, h2, h3⟩ := hc
    simp [get_ai_recommendation, defaultRecommendation, h1, h2, h3]
  have hne : (recordsFor business_id userId store).isEmpty = false :=
    List.isEmpty_eq_false.2 h
  refine ⟨?_, ?_, ?_, ?_⟩
  · exact hdef
  · intro a b c
    rfl
  · exact ⟨{ green_score := insightsGreenScore business_id userId store
             recommendation := get_ai_recommendation
               (topActivity (recordsFor business_id userId store))
               (topSourceCategory (recordsFor business_id userId store))
             explanation := insightsExplanation },
           by simp [get_insights, hne],
           hdef (topActivity (recordsFor business_id userId store)) _ htop⟩
  · exact ⟨{ business_type := firstBusinessType (recordsFor business_id userId store)
             total_emissions := totalEmissions (recordsFor business_id userId store)
             avg_monthly := totalEmissions (recordsFor business_id userId store) / 12
             contributors := groupSum (·.source_category) (recordsFor business_id userId store)
             top_category := (argmaxFirst (groupSum (·.source_category)
               (recordsFor business_id userId store))).1
             recommendation := get_ai_recommendation ""
               ((argmaxFirst (groupSum (·.source_category)
                 (recordsFor business_id userId store))).1) },
           by simp [generate_pdf_report, hne],
           hdef "" _ hrep⟩

/-- C10 witness: a store whose only record is a commute row — one of
the four scenario knob categories — gets the default recommendation
from insights and report. -/
theorem recommendation_lookup_witness :
    (∀ act cat, cat ∉ (["electricity", "transport", "waste"] : List String) →
      get_ai_recommendation act cat = defaultRecommendation) ∧
    (∀ act act2 cat, get_ai_recommendation act cat = get_ai_recommendation act2 cat) ∧
    (∃ out, get_insights "b1" "1"
        [⟨"b1", "retail", "2024-01", "commute", "bus", 10, "km", 2, 20, "3", "1"⟩] = .ok out ∧
      out.recommendation = defaultRecommendation) ∧
    (∃ rep, generate_pdf_report "b1" "1"
        [⟨"b1", "retail", "2024-01", "commute", "bus", 10, "km", 2, 20, "3", "1"⟩] = .ok rep ∧
      rep.recommendation = defaultRecommendation) :=
  recommendation_lookup_spec "b1" "1"
    [⟨"b1", "retail", "2024-01", "commute", "bus", 10, "km", 2, 20, "3", "1"⟩]
    (by decide) (by decide) (by decide)
